import Mathlib

/-!
Verification of the core claims about the solicit HTTP/2 library.

The development shallowly embeds the relevant parts of the source:

- `src/http/frame/ping.rs` (the PING frame codec) is embedded byte-exactly;
- `src/http/client.rs` (the `ClientConnection` and `ClientSession` adapters),
  `src/http/server.rs` (the `ServerSession` adapter) and `src/server/mod.rs`
  (the `SimpleServer`) are embedded operation by operation;
- components of the repository whose sources are not in the tree
  (`src/http/connection.rs`, `src/http/session.rs`, `src/http/frame/mod.rs`)
  are modelled from the specification, and each such definition says so in
  its doc comment.

Machine integers are modelled as `Nat` with explicit reductions modulo
`2 ^ w` exactly where the source truncates.
-/

namespace Solicit

/-- Stream identifiers: 31-bit unsigned integers (`pub type StreamId = u32`). -/
abbrev StreamId := Nat

/-- A header: a (name bytes, value bytes) pair. -/
abbrev Header := List Nat × List Nat

/-- The error kinds of the library reached by the embedded operations.
`UnableToConnect` is the variant returned for a bad preface or a bad first
frame (src/http/client.rs lines 63-64, src/server/mod.rs line 106). -/
inductive HttpError where
  | UnableToConnect
  | MalformedFrame
  | Other
  deriving DecidableEq

/-- A frame header: (payload length, frame type, flags, stream id)
(the `FrameHeader` tuple of the frame module). -/
abbrev FrameHeader := Nat × Nat × Nat × Nat

/-- Ping frames are always 8 bytes (src/http/frame/ping.rs line 16). -/
def PING_FRAME_LEN : Nat := 8

/-- The frame type of the PING frame, 0x6 (src/http/frame/ping.rs line 18). -/
def PING_FRAME_TYPE : Nat := 6

/-- The bitmask of the only PING flag, ACK (src/http/frame/ping.rs lines 20-25). -/
def PingFlag.bitmask : Nat := 1

/-- The PING HTTP/2 frame (src/http/frame/ping.rs lines 28-32): a 64-bit
opaque value and a flags byte. -/
structure PingFrame where
  opaque_data : Nat
  flags : Nat
  deriving DecidableEq

/-- PingFrame::new (src/http/frame/ping.rs lines 36-41). -/
def PingFrame.new : PingFrame :=
  { opaque_data := 0, flags := 0 }

/-- PingFrame::new_ack (src/http/frame/ping.rs lines 44-49): a PING frame
with the ACK flag set carrying the given opaque data. -/
def PingFrame.new_ack (opaque_data : Nat) : PingFrame :=
  { opaque_data := opaque_data, flags := 1 }

/-- PingFrame::with_data (src/http/frame/ping.rs lines 52-57). -/
def PingFrame.with_data (opaque_data : Nat) : PingFrame :=
  { opaque_data := opaque_data, flags := 0 }

/-- Frame::is_set for PingFrame (src/http/frame/ping.rs lines 92-94):
tests the flag bitmask against the flags byte. -/
def PingFrame.is_set (f : PingFrame) : Bool :=
  (PingFlag.bitmask &&& f.flags) != 0

/-- PingFrame::is_ack (src/http/frame/ping.rs lines 59-61). -/
def PingFrame.is_ack (f : PingFrame) : Bool :=
  f.is_set

/-- Frame::get_header for PingFrame (src/http/frame/ping.rs lines 100-102). -/
def PingFrame.get_header (f : PingFrame) : FrameHeader :=
  (PING_FRAME_LEN, PING_FRAME_TYPE, f.flags, 0)

/-- Modelled from the spec: `FrameBuilder::write_u32` (src/http/frame/mod.rs is
not in the tree) writes the four big-endian bytes of a 32-bit value
("Serialization writes big-endian", spec section 4.1). -/
def write_u32 (x : Nat) : List Nat :=
  [x / 2 ^ 24 % 256, x / 2 ^ 16 % 256, x / 2 ^ 8 % 256, x % 256]

/-- Modelled from the spec: `FrameBuilder::write_header` (src/http/frame/mod.rs
is not in the tree) writes the 9-byte frame header: 3 bytes payload length,
1 byte type, 1 byte flags, 4 bytes stream id with the reserved top bit
written as 0 (spec section 4.1). -/
def write_header (h : FrameHeader) : List Nat :=
  [h.1 / 2 ^ 16 % 256, h.1 / 2 ^ 8 % 256, h.1 % 256, h.2.1 % 256, h.2.2.1 % 256] ++
    write_u32 (h.2.2.2 % 2 ^ 31)

/-- FrameIR::serialize_into for PingFrame (src/http/frame/ping.rs lines
105-111): the header, then `(opaque_data >> 32) as u32`, then
`opaque_data as u32`, each as big-endian bytes. -/
def PingFrame.serialize_into (f : PingFrame) : List Nat :=
  write_header f.get_header ++
    write_u32 ((f.opaque_data >>> 32) % 2 ^ 32) ++
    write_u32 (f.opaque_data % 2 ^ 32)

/-- A raw frame: the parsed header plus the payload bytes (spec section 3;
the `RawFrame` type of src/http/frame/mod.rs, which is not in the tree). -/
structure RawFrame where
  header : FrameHeader
  payload : List Nat
  deriving DecidableEq

/-- Modelled from the spec: reading a `RawFrame` off the wire
(src/http/frame/mod.rs is not in the tree): a 9-byte header -- big-endian
24-bit length, type byte, flags byte, 31-bit stream id with the top bit
masked -- followed by exactly `length` payload bytes (spec sections 4.1
and 6; the invariant `payload.len == header.length` of spec section 3). -/
def parse_raw_frame (bytes : List Nat) : Option RawFrame :=
  match bytes with
  | b0 :: b1 :: b2 :: b3 :: b4 :: b5 :: b6 :: b7 :: b8 :: rest =>
    let len := b0 * 2 ^ 16 + b1 * 2 ^ 8 + b2
    let sid := b5 % 128 * 2 ^ 24 + b6 * 2 ^ 16 + b7 * 2 ^ 8 + b8
    if rest.length = len then some { header := (len, b3, b4, sid), payload := rest } else none
  | _ => none

/-- The `unpack_octets_4!` macro (invoked in src/http/frame/ping.rs lines
83-84; the macro itself lives in src/http/frame/mod.rs, not in the tree):
reassembles four consecutive buffer bytes big-endian,
`(buf[off] << 24) | (buf[off+1] << 16) | (buf[off+2] << 8) | buf[off+3]`. -/
def unpack_octets_4 (buf : List Nat) (off : Nat) : Nat :=
  buf.getD off 0 <<< 24 ||| buf.getD (off + 1) 0 <<< 16 |||
    buf.getD (off + 2) 0 <<< 8 ||| buf.getD (off + 3) 0

/-- Frame::from_raw for PingFrame (src/http/frame/ping.rs lines 71-90):
rejects a wrong payload length, frame type, or nonzero stream id, and
reassembles the opaque data from the two 32-bit payload halves. -/
def PingFrame.from_raw (raw : RawFrame) : Option PingFrame :=
  match raw.header with
  | (payload_len, frame_type, flags, stream_id) =>
    if payload_len ≠ PING_FRAME_LEN then none
    else if frame_type ≠ PING_FRAME_TYPE then none
    else if stream_id ≠ 0 then none
    else
      let data := unpack_octets_4 raw.payload 0 <<< 32 ||| unpack_octets_4 raw.payload 4
      some { opaque_data := data, flags := flags }

/-- The full inbound pipeline for a PING frame: split the wire bytes into a
`RawFrame`, then parse it with `PingFrame::from_raw`. -/
def parse_ping (bytes : List Nat) : Option PingFrame :=
  (parse_raw_frame bytes).bind PingFrame.from_raw

/-- The typed frames dispatched by the connection (spec sections 4.1-4.2;
the typed frame enum of src/http/connection.rs, which is not in the tree,
restricted to the variants the embedded operations handle). The PING
variant carries the `PingFrame` of src/http/frame/ping.rs. HPACK is treated
as an opaque codec (spec section 6), so HEADERS carries the decoded header
list directly. -/
inductive HttpFrame where
  | dataFrame (stream_id : StreamId) (data : List Nat) (end_stream : Bool)
  | headersFrame (stream_id : StreamId) (headers : List Header) (end_stream : Bool) (end_headers : Bool)
  | settingsFrame (ack : Bool)
  | pingFrame (frame : PingFrame)
  | goawayFrame
  | unknownFrame
  deriving DecidableEq

/-- The stream id a frame is addressed to, when it has one. -/
def HttpFrame.frame_stream_id : HttpFrame → Option StreamId
  | .dataFrame sid _ _ => some sid
  | .headersFrame sid _ _ _ => some sid
  | _ => none

/-- Tests whether a frame is a SETTINGS frame without the ACK flag (the
server preface, spec section 6). -/
def HttpFrame.is_non_ack_settings : HttpFrame → Bool
  | .settingsFrame ack => !ack
  | _ => false

/-- Modelled from the spec: the connection engine reduced to its outbound
frame queue (spec section 4.2; `HttpConnection` lives in
src/http/connection.rs, which is not in the tree). Frames handed to the
`SendFrame` half are recorded in `sent` in order. -/
structure HttpConnection where
  sent : List HttpFrame
  deriving DecidableEq

/-- Enqueue one outbound frame (the `SendFrame::send_frame` capability,
spec section 6). -/
def HttpConnection.send_frame (c : HttpConnection) (f : HttpFrame) : HttpConnection :=
  { sent := c.sent ++ [f] }

/-- Modelled from the spec: `send_headers(headers, stream_id, end_stream)`
emits one HEADERS frame with END_HEADERS set and END_STREAM set iff the
caller requested it (spec section 4.2; src/http/connection.rs is not in
the tree). -/
def HttpConnection.send_headers (c : HttpConnection) (headers : List Header)
    (stream_id : StreamId) (end_stream : Bool) : HttpConnection :=
  c.send_frame (.headersFrame stream_id headers end_stream true)

/-- Modelled from the spec: `send_data(buf, stream_id, end_stream)` emits
one DATA frame carrying `buf` with END_STREAM as requested (spec section
4.2; src/http/connection.rs is not in the tree). -/
def HttpConnection.send_data (c : HttpConnection) (data : List Nat)
    (stream_id : StreamId) (end_stream : Bool) : HttpConnection :=
  c.send_frame (.dataFrame stream_id data end_stream)

/-- Modelled from the spec: sending the connection's own (empty, non-ACK)
SETTINGS frame during initialization (spec sections 4.5 and 6;
src/server/mod.rs line 120 calls it, the callee is not in the tree). -/
def HttpConnection.send_settings (c : HttpConnection) : HttpConnection :=
  c.send_frame (.settingsFrame false)

/-- The `Session` trait (src/http/client.rs lines 148-186 and
src/http/server.rs lines 56-98 implement it): the callbacks the connection
dispatches typed frame events to, over a session state of type `σ`. -/
structure SessionCallbacks (σ : Type) where
  new_data_chunk : σ → StreamId → List Nat → σ
  new_headers : σ → StreamId → List Header → σ
  end_of_stream : σ → StreamId → σ

/-- Modelled from the spec: `handle_next_frame` dispatch on one received
frame (spec section 4.2; src/http/connection.rs is not in the tree).
DATA feeds `new_data_chunk` then, on END_STREAM, `end_of_stream`; HEADERS
feeds `new_headers` then, on END_STREAM, `end_of_stream`; a non-ACK
SETTINGS enqueues a SETTINGS ACK; a non-ACK PING enqueues a PING ACK with
identical opaque data; ACK SETTINGS, ACK PING, GOAWAY recording aside, and
unknown frames change nothing observable here. -/
def HttpConnection.handle_frame {σ : Type} (c : HttpConnection)
    (cb : SessionCallbacks σ) (st : σ) (frame : HttpFrame) : HttpConnection × σ :=
  match frame with
  | .dataFrame sid data es =>
    let st := cb.new_data_chunk st sid data
    (c, if es then cb.end_of_stream st sid else st)
  | .headersFrame sid hs es _ =>
    let st := cb.new_headers st sid hs
    (c, if es then cb.end_of_stream st sid else st)
  | .settingsFrame ack =>
    (if ack then c else c.send_frame (.settingsFrame true), st)
  | .pingFrame p =>
    (if p.is_ack then c else c.send_frame (.pingFrame (PingFrame.new_ack p.opaque_data)), st)
  | .goawayFrame => (c, st)
  | .unknownFrame => (c, st)

/-- Modelled from the spec: `expect_settings` pulls exactly one frame and
fails unless it is a non-ACK SETTINGS, which is then processed as in
`handle_next_frame` (spec section 4.2; src/http/connection.rs is not in
the tree). The received frame is passed explicitly, standing for the
connection's receive interface. -/
def HttpConnection.expect_settings {σ : Type} (c : HttpConnection)
    (cb : SessionCallbacks σ) (st : σ) (frame : HttpFrame) :
    Except HttpError (HttpConnection × σ) :=
  match frame with
  | .settingsFrame false => .ok (c.handle_frame cb st (.settingsFrame false))
  | _ => .error .UnableToConnect

/-- An HTTP/2 request (the `Request` struct of src/http/mod.rs, which is
not in the tree; its fields follow its uses in src/http/client.rs lines
74-86 and 250-258: `stream_id`, `headers`, `body`). -/
structure Request where
  stream_id : StreamId
  headers : List Header
  body : List Nat
  deriving DecidableEq

/-- Modelled from the spec: the default stream implementation (spec section
4.3; src/http/session.rs is not in the tree). It carries optional received
headers, appended body bytes, a local-closed and a remote-closed flag, and
optional staged outbound data. Method names follow their call sites in
src/http/client.rs, src/http/server.rs and src/server/mod.rs. -/
structure DefaultStream where
  id : StreamId
  headers : Option (List Header)
  body : List Nat
  closed_local : Bool
  closed_remote : Bool
  outgoing : Option (List Nat)
  deriving DecidableEq

/-- DefaultStream::with_id (used by src/server/mod.rs line 28): a fresh
stream with no headers, empty body, both sides open, nothing staged. -/
def DefaultStream.with_id (id : StreamId) : DefaultStream :=
  { id := id, headers := none, body := [], closed_local := false,
    closed_remote := false, outgoing := none }

/-- Stream::set_headers: stores the headers; a second call replaces them
(trailers semantics, spec section 4.3). -/
def DefaultStream.set_headers (s : DefaultStream) (h : List Header) : DefaultStream :=
  { s with headers := some h }

/-- Stream::new_data_chunk: appends to the body (spec section 4.3). -/
def DefaultStream.new_data_chunk (s : DefaultStream) (d : List Nat) : DefaultStream :=
  { s with body := s.body ++ d }

/-- Stream::close (called by src/http/client.rs line 184): closes both
sides, making the stream eligible for harvest. -/
def DefaultStream.close (s : DefaultStream) : DefaultStream :=
  { s with closed_local := true, closed_remote := true }

/-- Stream::close_remote (called by src/http/server.rs line 96). -/
def DefaultStream.close_remote (s : DefaultStream) : DefaultStream :=
  { s with closed_remote := true }

/-- Stream::is_closed: both sides closed (spec section 4.3). -/
def DefaultStream.is_closed (s : DefaultStream) : Bool :=
  s.closed_local && s.closed_remote

/-- Stream::is_closed_remote (used by src/server/mod.rs line 151). -/
def DefaultStream.is_closed_remote (s : DefaultStream) : Bool :=
  s.closed_remote

/-- Stream::set_full_data (used by src/server/mod.rs line 174): stages the
response body for the prioritizer. -/
def DefaultStream.set_full_data (s : DefaultStream) (d : List Nat) : DefaultStream :=
  { s with outgoing := some d }

/-- Modelled from the spec: the default session state -- an ordered mapping
from stream id to stream whose iteration order is insertion order (spec
sections 3 and 4.3; src/http/session.rs is not in the tree). -/
structure SessionState where
  streams : List DefaultStream
  deriving DecidableEq

/-- SessionState::get_stream_ref / get_stream_mut: the stream with the
given id, if present. -/
def SessionState.get_stream_ref (st : SessionState) (id : StreamId) : Option DefaultStream :=
  st.streams.find? (fun s => s.id == id)

/-- Modelled from the spec: `insert(stream)` fails (here: leaves the state
unchanged) if the id is already present, otherwise appends the stream at
the end of the insertion order (spec section 4.3). -/
def SessionState.insert_stream (st : SessionState) (s : DefaultStream) : SessionState :=
  if st.streams.any (fun t => t.id == s.id) then st else { streams := st.streams ++ [s] }

/-- Replaces the first stream with the given id by its image under `f`:
the in-place mutation performed through the `&mut` reference that
`get_stream_mut` hands to the session callbacks. -/
def update_first (l : List DefaultStream) (id : StreamId)
    (f : DefaultStream → DefaultStream) : List DefaultStream :=
  match l with
  | [] => []
  | s :: rest => if s.id == id then f s :: rest else s :: update_first rest id f

/-- State mutation of the stream with the given id (see `update_first`). -/
def SessionState.update_stream (st : SessionState) (id : StreamId)
    (f : DefaultStream → DefaultStream) : SessionState :=
  { streams := update_first st.streams id f }

/-- Modelled from the spec: `harvest_closed` / `get_closed` removes and
yields all fully-closed streams in insertion order; the remaining streams
keep their insertion order (spec section 4.3). -/
def SessionState.get_closed (st : SessionState) : List DefaultStream × SessionState :=
  (st.streams.filter (fun s => s.is_closed),
   { streams := st.streams.filter (fun s => !s.is_closed) })

/-- A client session: wraps a `DefaultSessionState`
(src/http/client.rs lines 109-111). -/
structure ClientSession where
  state : SessionState
  deriving DecidableEq

/-- ClientSession::new (src/http/client.rs lines 115-119). -/
def ClientSession.new : ClientSession :=
  { state := { streams := [] } }

/-- ClientSession::new_stream (src/http/client.rs lines 135-137): inserts a
fresh stream with the given id. -/
def ClientSession.new_stream (s : ClientSession) (stream_id : StreamId) : ClientSession :=
  { state := s.state.insert_stream (DefaultStream.with_id stream_id) }

/-- ClientSession::get_closed (src/http/client.rs lines 143-145): moves all
closed streams out of the session. -/
def ClientSession.get_closed (s : ClientSession) : List DefaultStream × ClientSession :=
  match s.state.get_closed with
  | (closed, state) => (closed, { state := state })

/-- Session::new_data_chunk for ClientSession (src/http/client.rs lines
149-160): a chunk for an unknown stream is ignored, otherwise the stream
handles it. -/
def ClientSession.new_data_chunk (s : ClientSession) (stream_id : StreamId)
    (data : List Nat) : ClientSession :=
  match s.state.get_stream_ref stream_id with
  | none => s
  | some _ => { state := s.state.update_stream stream_id (fun t => t.new_data_chunk data) }

/-- Session::new_headers for ClientSession (src/http/client.rs lines
162-173): headers for an unknown stream are ignored, otherwise stored on
the stream. -/
def ClientSession.new_headers (s : ClientSession) (stream_id : StreamId)
    (headers : List Header) : ClientSession :=
  match s.state.get_stream_ref stream_id with
  | none => s
  | some _ => { state := s.state.update_stream stream_id (fun t => t.set_headers headers) }

/-- Session::end_of_stream for ClientSession (src/http/client.rs lines
175-185): end of stream for an unknown stream is ignored, otherwise the
stream is closed. -/
def ClientSession.end_of_stream (s : ClientSession) (stream_id : StreamId) : ClientSession :=
  match s.state.get_stream_ref stream_id with
  | none => s
  | some _ => { state := s.state.update_stream stream_id (fun t => t.close) }

/-- The ClientSession callbacks packaged as a `Session` instance
(the `impl Session for ClientSession`, src/http/client.rs lines 148-186). -/
def clientSessionCallbacks : SessionCallbacks ClientSession :=
  { new_data_chunk := ClientSession.new_data_chunk,
    new_headers := ClientSession.new_headers,
    end_of_stream := ClientSession.end_of_stream }

/-- The client connection: an `HttpConnection` plus the client `Session`
(src/http/client.rs lines 13-22). -/
structure ClientConnection where
  conn : HttpConnection
  session : ClientSession
  deriving DecidableEq

/-- ClientConnection::init (src/http/client.rs lines 48-51, via
read_preface, lines 65-67): expects the next received frame to be the
server preface, a non-ACK SETTINGS frame, and processes it. The received
frame is passed explicitly, standing for the receive interface. -/
def ClientConnection.init (c : ClientConnection) (frame : HttpFrame) :
    Except HttpError ClientConnection :=
  match c.conn.expect_settings clientSessionCallbacks c.session frame with
  | .ok (conn, session) => .ok { conn := conn, session := session }
  | .error e => .error e

/-- ClientConnection::send_request (src/http/client.rs lines 74-86): sends
the request headers on `req.stream_id`, with END_STREAM iff the body is
empty; a non-empty body follows in a single DATA frame with END_STREAM
set. The session is not touched. -/
def ClientConnection.send_request (c : ClientConnection) (req : Request) : ClientConnection :=
  let end_of_stream := req.body.length == 0
  let conn := c.conn.send_headers req.headers req.stream_id end_of_stream
  let conn := if !end_of_stream then conn.send_data req.body req.stream_id true else conn
  { c with conn := conn }

/-- Session::new_data_chunk for ServerSession (src/http/server.rs lines
59-70): a chunk for an unknown stream is ignored, otherwise the stream
handles it. -/
def ServerSession.new_data_chunk (state : SessionState) (stream_id : StreamId)
    (data : List Nat) : SessionState :=
  match state.get_stream_ref stream_id with
  | none => state
  | some _ => state.update_stream stream_id (fun t => t.new_data_chunk data)

/-- Session::new_headers for ServerSession (src/http/server.rs lines
71-85): for a known stream the headers are set on it (trailers semantics);
for an unknown stream the factory mints a stream, the headers are set on
it, and it is inserted into the state. The second component records the
stream ids the factory was invoked with, in order. -/
def ServerSession.new_headers (state : SessionState) (factory : StreamId → DefaultStream)
    (stream_id : StreamId) (headers : List Header) : SessionState × List StreamId :=
  match state.get_stream_ref stream_id with
  | some _ => (state.update_stream stream_id (fun t => t.set_headers headers), [])
  | none =>
    let stream := factory stream_id
    let stream := stream.set_headers headers
    (state.insert_stream stream, [stream_id])

/-- Session::end_of_stream for ServerSession (src/http/server.rs lines
87-97): end of stream for an unknown stream is ignored, otherwise the
remote side of the stream is closed. -/
def ServerSession.end_of_stream (state : SessionState) (stream_id : StreamId) : SessionState :=
  match state.get_stream_ref stream_id with
  | none => state
  | some _ => state.update_stream stream_id (fun t => t.close_remote)

/-- SimpleFactory (src/server/mod.rs lines 24-30): mints
`DefaultStream::with_id(id)` for each new peer-initiated stream. -/
def SimpleFactory.create (id : StreamId) : DefaultStream :=
  DefaultStream.with_id id

/-- The ServerSession callbacks over the `SimpleFactory`, as wired by
`SimpleServer` (src/server/mod.rs line 111 with src/http/server.rs lines
56-98). -/
def serverSessionCallbacks : SessionCallbacks SessionState :=
  { new_data_chunk := ServerSession.new_data_chunk,
    new_headers := fun st id h => (ServerSession.new_headers st SimpleFactory.create id h).1,
    end_of_stream := ServerSession.end_of_stream }

/-- The 24-byte client preface literal b"PRI * HTTP/2.0\r\n\r\nSM\r\n\r\n"
(src/server/mod.rs line 105), as ASCII byte values. -/
def clientPrefaceBytes : List Nat :=
  [80, 82, 73, 32, 42, 32, 72, 84, 84, 80, 47, 50, 46, 48, 13, 10, 13, 10, 83, 77, 13, 10, 13, 10]

/-- A `SimpleServer` reduced to what `new` establishes: its connection
(outbound frame queue) and session state (src/server/mod.rs lines
88-95). -/
structure SimpleServer where
  conn : HttpConnection
  state : SessionState
  deriving DecidableEq

/-- SimpleServer::new (src/server/mod.rs lines 101-127): reads 24 preface
bytes and rejects them unless they equal the client preface literal; then
sends the server's own SETTINGS frame and expects the client's non-ACK
SETTINGS frame (`expect_settings`, modelled from the spec since
src/http/connection.rs is not in the tree). The preface bytes read and the
first frame received after them are passed explicitly, standing for the
transport. -/
def SimpleServer.new (preface : List Nat) (first_frame : HttpFrame) :
    Except HttpError SimpleServer :=
  if preface ≠ clientPrefaceBytes then .error HttpError.UnableToConnect
  else
    let conn : HttpConnection := { sent := [] }
    let conn := conn.send_settings
    match conn.expect_settings serverSessionCallbacks ({ streams := [] } : SessionState) first_frame with
    | .ok (conn, state) => .ok { conn := conn, state := state }
    | .error e => .error e

/-- The mutations a `SimpleServer` applies to its session state over its
lifetime (src/server/mod.rs lines 134-194): the three session callbacks
dispatched by `handle_next_frame`, the staging of a response body by
`prepare_responses` (line 174), and the harvest of closed streams by
`reap_streams` (line 192). -/
inductive ServerEvent where
  | headersEv (id : StreamId) (h : List Header)
  | dataEv (id : StreamId) (chunk : List Nat)
  | endStreamEv (id : StreamId)
  | stageResponseEv (id : StreamId) (body : List Nat)
  | reapEv
  deriving DecidableEq

/-- One `SimpleServer` state mutation (see `ServerEvent`). -/
def server_step (st : SessionState) (e : ServerEvent) : SessionState :=
  match e with
  | .headersEv id h => (ServerSession.new_headers st SimpleFactory.create id h).1
  | .dataEv id chunk => ServerSession.new_data_chunk st id chunk
  | .endStreamEv id => ServerSession.end_of_stream st id
  | .stageResponseEv id body => st.update_stream id (fun t => t.set_full_data body)
  | .reapEv => st.get_closed.2

/-- The session state of a `SimpleServer` after a sequence of mutations,
starting from the empty state it is constructed with
(src/server/mod.rs line 110). -/
def server_run (evs : List ServerEvent) : SessionState :=
  evs.foldl server_step { streams := [] }

/-! Helper lemmas. -/

/-- Bitwise or of disjoint ranges is addition: oring a value shifted past
`k` bits with a `k`-bit value. -/
theorem lor_shiftLeft_add (k : Nat) : ∀ x y : Nat, y < 2 ^ k → (x <<< k) ||| y = x <<< k + y := by
  induction k with
  | zero =>
    intro x y hy
    have : y = 0 := by omega
    subst this
    simp
  | succ k ih =>
    intro x y hy
    have hbit : Nat.bit y.bodd y.div2 = y := Nat.bit_decomp y
    have hx2 : x <<< (k + 1) = Nat.bit false (x <<< k) := by
      rw [Nat.shiftLeft_succ, Nat.bit_val]
      simp
    have hdiv : y.div2 < 2 ^ k := by
      have h2 : (2 : Nat) ^ (k + 1) = 2 * 2 ^ k := by ring
      have := Nat.bodd_add_div2 y
      rcases Bool.eq_false_or_eq_true y.bodd with h | h <;> simp [h] at this <;> omega
    rw [hx2, ← hbit, Nat.lor_bit, ih x y.div2 hdiv]
    rcases Bool.eq_false_or_eq_true y.bodd with h | h <;>
      simp [h, Nat.bit_val] <;> ring

/-- The multiplication form of `lor_shiftLeft_add`. -/
theorem lor_mul_add (k x y : Nat) (hy : y < 2 ^ k) : x * 2 ^ k ||| y = x * 2 ^ k + y := by
  have := lor_shiftLeft_add k x y hy
  rwa [Nat.shiftLeft_eq] at this

/-- Reassembling four bytes big-endian equals the base-256 sum. -/
theorem bytes_recompose (a b c d : Nat) (hb : b < 256) (hc : c < 256) (hd : d < 256) :
    a <<< 24 ||| b <<< 16 ||| c <<< 8 ||| d = a * 2 ^ 24 + b * 2 ^ 16 + c * 2 ^ 8 + d := by
  have e8 : (2 : Nat) ^ 8 = 256 := by norm_num
  have e16 : (2 : Nat) ^ 16 = 65536 := by norm_num
  have e24 : (2 : Nat) ^ 24 = 16777216 := by norm_num
  have hb' : b * 2 ^ 16 < 2 ^ 24 := by rw [e16, e24]; omega
  have hc' : c * 2 ^ 8 < 2 ^ 16 := by rw [e8, e16]; omega
  have hd' : d < 2 ^ 8 := by rw [e8]; omega
  rw [Nat.shiftLeft_eq, Nat.shiftLeft_eq, Nat.shiftLeft_eq]
  rw [lor_mul_add 24 a (b * 2 ^ 16) hb']
  have hr1 : a * 2 ^ 24 + b * 2 ^ 16 = (a * 2 ^ 8 + b) * 2 ^ 16 := by ring
  rw [hr1, lor_mul_add 16 (a * 2 ^ 8 + b) (c * 2 ^ 8) hc']
  have hr2 : (a * 2 ^ 8 + b) * 2 ^ 16 + c * 2 ^ 8 = ((a * 2 ^ 8 + b) * 2 ^ 8 + c) * 2 ^ 8 := by
    ring
  rw [hr2, lor_mul_add 8 _ d hd']

/-- Updating a stream in place preserves the number of streams. -/
theorem update_first_length (l : List DefaultStream) (id : StreamId)
    (f : DefaultStream → DefaultStream) : (update_first l id f).length = l.length := by
  induction l with
  | nil => rfl
  | cons a rest ih =>
    unfold update_first
    split <;> simp [ih]

/-- Updating the found stream in place makes `find?` return its image,
provided the update preserves the id. -/
theorem update_first_find (l : List DefaultStream) (id : StreamId)
    (f : DefaultStream → DefaultStream) (s : DefaultStream)
    (hf : ∀ t, (f t).id = t.id)
    (hfind : l.find? (fun t => t.id == id) = some s) :
    (update_first l id f).find? (fun t => t.id == id) = some (f s) := by
  induction l with
  | nil => simp at hfind
  | cons a rest ih =>
    cases hid : (a.id == id) with
    | true =>
      have hfind2 : some a = some s := by
        rw [← hfind]
        exact (List.find?_cons_of_pos rest hid).symm
      obtain rfl : a = s := by injection hfind2
      have hu : update_first (a :: rest) id f = f a :: rest := by
        simp [update_first, hid]
      rw [hu]
      apply List.find?_cons_of_pos
      rw [hf a]
      exact hid
    | false =>
      have hfind2 : List.find? (fun t => t.id == id) rest = some s := by
        rw [← hfind]
        exact (List.find?_cons_of_neg rest (by simp [hid])).symm
      have hu : update_first (a :: rest) id f = a :: update_first rest id f := by
        simp [update_first, hid]
      rw [hu]
      rw [List.find?_cons_of_neg _ (by simp [hid])]
      exact ih hfind2

/-- A stream id absent from the state makes the insertion guard pass. -/
theorem any_eq_false_of_find_none (l : List DefaultStream) (id : StreamId)
    (h : l.find? (fun t => t.id == id) = none) :
    l.any (fun t => t.id == id) = false := by
  rw [List.find?_eq_none] at h
  simp only [List.any_eq_false]
  intro t ht
  exact fun hc => h t ht hc

/-! C1. The claim says `send_request` allocates the next odd stream id,
inserts a new stream into the session, and returns the allocated id. The
source (src/http/client.rs lines 74-86) does none of that: the stream id
comes from the caller-built `Request`, the session is untouched, and the
result is `HttpResult<()>`. -/

/-- C1 counterexample: a `send_request` for a request carrying the even
stream id 2 on a fresh connection emits its HEADERS frame on exactly that
caller-supplied even id, inserts no stream into the session, and returns
no stream id; so no odd id was allocated and nothing was inserted. -/
theorem send_request_no_alloc_counterexample :
    (ClientConnection.send_request ⟨⟨[]⟩, ClientSession.new⟩ ⟨2, [], []⟩).session.state.streams
        = [] ∧
      (ClientConnection.send_request ⟨⟨[]⟩, ClientSession.new⟩ ⟨2, [], []⟩).conn.sent
        = [HttpFrame.headersFrame 2 [] true true] ∧
      (2 : Nat) % 2 = 0 := by
  decide

/-- C1 (amended): `send_request` leaves the session unchanged (no stream is
inserted, no id allocated) and every frame it emits is addressed to the
caller-supplied `req.stream_id`; the call returns success with no stream
id. Stream id allocation belongs to the higher-level client wrappers, not
to `ClientConnection::send_request`. -/
theorem send_request_session_unchanged_caller_id (c : ClientConnection) (req : Request) :
    (c.send_request req).session = c.session ∧
      ∃ fs : List HttpFrame, (c.send_request req).conn.sent = c.conn.sent ++ fs ∧
        ∀ f ∈ fs, f.frame_stream_id = some req.stream_id := by
  refine ⟨rfl, ?_⟩
  cases hb : req.body with
  | nil =>
    refine ⟨[.headersFrame req.stream_id req.headers true true], ?_, ?_⟩
    · simp [ClientConnection.send_request, HttpConnection.send_headers,
        HttpConnection.send_frame, hb]
    · intro f hf
      simp only [List.mem_singleton] at hf
      subst hf
      rfl
  | cons a tl =>
    refine ⟨[.headersFrame req.stream_id req.headers false true,
             .dataFrame req.stream_id req.body true], ?_, ?_⟩
    · simp [ClientConnection.send_request, HttpConnection.send_headers,
        HttpConnection.send_data, HttpConnection.send_frame, hb]
    · intro f hf
      simp only [List.mem_cons, List.mem_singleton, List.not_mem_nil, or_false] at hf
      rcases hf with hf | hf <;> subst hf <;> rfl

/-- C1 witness: the amended statement at a fresh connection and a request
on stream id 5 with body `[7]`. -/
theorem send_request_session_unchanged_caller_id_witness :
    (ClientConnection.send_request ⟨⟨[]⟩, ClientSession.new⟩ ⟨5, [], [7]⟩).session
        = (⟨⟨[]⟩, ClientSession.new⟩ : ClientConnection).session ∧
      ∃ fs : List HttpFrame,
        (ClientConnection.send_request ⟨⟨[]⟩, ClientSession.new⟩ ⟨5, [], [7]⟩).conn.sent
            = (⟨⟨[]⟩, ClientSession.new⟩ : ClientConnection).conn.sent ++ fs ∧
          ∀ f ∈ fs, f.frame_stream_id = some (5 : StreamId) :=
  send_request_session_unchanged_caller_id ⟨⟨[]⟩, ClientSession.new⟩ ⟨5, [], [7]⟩

/-! C2. The frames emitted by one `send_request`. -/

/-- C2: `send_request` appends exactly one HEADERS frame with END_HEADERS
set and END_STREAM set iff the body is empty; a non-empty body is followed
by exactly one DATA frame carrying the entire body with END_STREAM set;
no other frames are emitted. -/
theorem send_request_frames (c : ClientConnection) (req : Request) :
    (c.send_request req).conn.sent =
      c.conn.sent ++
        (if req.body = [] then
          [HttpFrame.headersFrame req.stream_id req.headers true true]
        else
          [HttpFrame.headersFrame req.stream_id req.headers false true,
           HttpFrame.dataFrame req.stream_id req.body true]) := by
  cases hb : req.body with
  | nil =>
    simp [ClientConnection.send_request, HttpConnection.send_headers,
      HttpConnection.send_frame, hb]
  | cons a tl =>
    simp [ClientConnection.send_request, HttpConnection.send_headers,
      HttpConnection.send_data, HttpConnection.send_frame, hb]

/-! C4. Client initialization. -/

/-- C4: `ClientConnection::init` succeeds exactly when the first frame
received is a non-ACK SETTINGS frame, and fails otherwise. -/
theorem client_init_ok_iff (c : ClientConnection) (frame : HttpFrame) :
    (c.init frame).isOk = frame.is_non_ack_settings := by
  cases frame with
  | settingsFrame ack => cases ack <;> rfl
  | dataFrame sid d es => rfl
  | headersFrame sid h es eh => rfl
  | pingFrame p => rfl
  | goawayFrame => rfl
  | unknownFrame => rfl

/-! C7. PING acknowledgement. -/

/-- C7: handling a received non-ACK PING frame with opaque data `D`
enqueues exactly one outbound PING frame, which has the ACK flag set and
carries the identical opaque data `D`. -/
theorem ping_ack_enqueued {σ : Type} (c : HttpConnection) (cb : SessionCallbacks σ)
    (st : σ) (p : PingFrame) (hack : p.is_ack = false) :
    (c.handle_frame cb st (.pingFrame p)).1.sent =
        c.sent ++ [HttpFrame.pingFrame (PingFrame.new_ack p.opaque_data)] ∧
      (PingFrame.new_ack p.opaque_data).is_ack = true ∧
      (PingFrame.new_ack p.opaque_data).opaque_data = p.opaque_data := by
  refine ⟨?_, ?_, rfl⟩
  · simp [HttpConnection.handle_frame, hack, HttpConnection.send_frame]
  · simp [PingFrame.is_ack, PingFrame.is_set, PingFrame.new_ack, PingFlag.bitmask]

/-- A session whose callbacks do nothing, for exercising connection-level
dispatch on its own. -/
def trivialCallbacks : SessionCallbacks Unit :=
  { new_data_chunk := fun _ _ _ => (),
    new_headers := fun _ _ _ => (),
    end_of_stream := fun _ _ => () }

/-- C7 witness: the PING of spec scenario 7, opaque data
0x0102030405060708 with no flags, on a fresh connection. -/
theorem ping_ack_enqueued_witness :
    PingFrame.is_ack ⟨0x0102030405060708, 0⟩ = false ∧
      ((HttpConnection.handle_frame ⟨[]⟩ trivialCallbacks ()
            (.pingFrame ⟨0x0102030405060708, 0⟩)).1.sent =
          ([] : List HttpFrame) ++ [HttpFrame.pingFrame (PingFrame.new_ack 0x0102030405060708)] ∧
        (PingFrame.new_ack 0x0102030405060708).is_ack = true ∧
        (PingFrame.new_ack (0x0102030405060708 : Nat)).opaque_data = 0x0102030405060708) :=
  ⟨by decide, ping_ack_enqueued ⟨[]⟩ trivialCallbacks () ⟨0x0102030405060708, 0⟩ (by decide)⟩

/-! C9. Events for unknown stream ids are ignored. -/

/-- C9: every session callback delivered with a stream id that is not in
the session state returns normally and leaves the state unchanged:
`new_data_chunk`, `new_headers` and `end_of_stream` on `ClientSession`,
and `new_data_chunk` and `end_of_stream` on `ServerSession`. -/
theorem unknown_stream_id_ignored (s : ClientSession) (id : StreamId)
    (data : List Nat) (hs : List Header)
    (habs : s.state.get_stream_ref id = none) :
    s.new_data_chunk id data = s ∧ s.new_headers id hs = s ∧
      s.end_of_stream id = s ∧
      ServerSession.new_data_chunk s.state id data = s.state ∧
      ServerSession.end_of_stream s.state id = s.state := by
  refine ⟨?_, ?_, ?_, ?_, ?_⟩ <;>
    simp only [ClientSession.new_data_chunk, ClientSession.new_headers,
      ClientSession.end_of_stream, ServerSession.new_data_chunk,
      ServerSession.end_of_stream, habs]

/-- C9 witness: an empty session and stream id 1. -/
theorem unknown_stream_id_ignored_witness :
    ClientSession.new_data_chunk ClientSession.new 1 [1] = ClientSession.new ∧
      ClientSession.new_headers ClientSession.new 1 [([1], [2])] = ClientSession.new ∧
      ClientSession.end_of_stream ClientSession.new 1 = ClientSession.new ∧
      ServerSession.new_data_chunk ClientSession.new.state 1 [1] = ClientSession.new.state ∧
      ServerSession.end_of_stream ClientSession.new.state 1 = ClientSession.new.state :=
  unknown_stream_id_ignored ClientSession.new 1 [1] [([1], [2])] rfl

/-! C3. Server initialization. -/

/-- Closed form of `SimpleServer::new`: success exactly on the literal
preface followed by a non-ACK SETTINGS frame, with the server's own
SETTINGS and the SETTINGS ACK then sent. -/
theorem simple_server_new_eq (preface : List Nat) (frame : HttpFrame) :
    SimpleServer.new preface frame =
      if preface = clientPrefaceBytes ∧ frame.is_non_ack_settings = true then
        .ok ⟨⟨[.settingsFrame false, .settingsFrame true]⟩, ⟨[]⟩⟩
      else .error .UnableToConnect := by
  by_cases hp : preface = clientPrefaceBytes
  · cases frame with
    | settingsFrame ack =>
      cases ack <;>
        simp [SimpleServer.new, hp, HttpConnection.expect_settings,
          HttpConnection.handle_frame, HttpConnection.send_settings,
          HttpConnection.send_frame, HttpFrame.is_non_ack_settings]
    | dataFrame sid d es =>
      simp [SimpleServer.new, hp, HttpConnection.expect_settings,
        HttpConnection.send_settings, HttpConnection.send_frame,
        HttpFrame.is_non_ack_settings]
    | headersFrame sid h es eh =>
      simp [SimpleServer.new, hp, HttpConnection.expect_settings,
        HttpConnection.send_settings, HttpConnection.send_frame,
        HttpFrame.is_non_ack_settings]
    | pingFrame p =>
      simp [SimpleServer.new, hp, HttpConnection.expect_settings,
        HttpConnection.send_settings, HttpConnection.send_frame,
        HttpFrame.is_non_ack_settings]
    | goawayFrame =>
      simp [SimpleServer.new, hp, HttpConnection.expect_settings,
        HttpConnection.send_settings, HttpConnection.send_frame,
        HttpFrame.is_non_ack_settings]
    | unknownFrame =>
      simp [SimpleServer.new, hp, HttpConnection.expect_settings,
        HttpConnection.send_settings, HttpConnection.send_frame,
        HttpFrame.is_non_ack_settings]
  · simp [SimpleServer.new, hp]

/-- C3: `SimpleServer::new` fails exactly when the 24 bytes read are not
the literal client preface or the frame received after them is not a
non-ACK SETTINGS frame; on success, the server has sent its own SETTINGS
frame (followed by the ACK of the client's). -/
theorem simple_server_new_spec (preface : List Nat) (frame : HttpFrame) :
    ((SimpleServer.new preface frame).isOk = true ↔
        preface = clientPrefaceBytes ∧ frame.is_non_ack_settings = true) ∧
      ∀ s : SimpleServer, SimpleServer.new preface frame = .ok s →
        s.conn.sent = [HttpFrame.settingsFrame false, HttpFrame.settingsFrame true] := by
  rw [simple_server_new_eq]
  by_cases h : preface = clientPrefaceBytes ∧ frame.is_non_ack_settings = true
  · refine ⟨by simp [h, Except.isOk, Except.toBool], ?_⟩
    intro s hs
    simp only [if_pos h, Except.ok.injEq] at hs
    rw [← hs]
  · refine ⟨by simp [h, Except.isOk, Except.toBool], ?_⟩
    intro s hs
    simp [if_neg h] at hs

/-- C3 witness: the literal preface followed by a non-ACK SETTINGS frame. -/
theorem simple_server_new_spec_witness :
    ((SimpleServer.new clientPrefaceBytes (.settingsFrame false)).isOk = true ↔
        clientPrefaceBytes = clientPrefaceBytes ∧
          (HttpFrame.settingsFrame false).is_non_ack_settings = true) ∧
      ∀ s : SimpleServer, SimpleServer.new clientPrefaceBytes (.settingsFrame false) = .ok s →
        s.conn.sent = [HttpFrame.settingsFrame false, HttpFrame.settingsFrame true] :=
  simple_server_new_spec clientPrefaceBytes (.settingsFrame false)

/-! C5. Server session HEADERS handling. -/

/-- C5: delivering `new_headers(id, h)` to a `ServerSession` when no stream
with that id is in the state invokes the factory exactly once, with `id`,
sets `h` as the new stream's headers, and appends the stream to the state;
when a stream with that id exists, its headers are replaced by `h` in
place, the factory is not invoked, and no stream is inserted (the state
keeps its size, and the stream is now found with the new headers). The
factory is assumed to mint a stream carrying the id it is given. -/
theorem server_new_headers_spec (state : SessionState) (factory : StreamId → DefaultStream)
    (id : StreamId) (h : List Header) (hfac : (factory id).id = id) :
    (state.get_stream_ref id = none →
      ServerSession.new_headers state factory id h =
          ({ streams := state.streams ++ [(factory id).set_headers h] }, [id]) ∧
        ((factory id).set_headers h).headers = some h) ∧
    (∀ s : DefaultStream, state.get_stream_ref id = some s →
      ServerSession.new_headers state factory id h =
          (state.update_stream id (fun t => t.set_headers h), []) ∧
        (ServerSession.new_headers state factory id h).1.get_stream_ref id
            = some (s.set_headers h) ∧
        (ServerSession.new_headers state factory id h).1.streams.length
            = state.streams.length) := by
  constructor
  · intro habs
    refine ⟨?_, rfl⟩
    have habs' : state.streams.find? (fun s => s.id == id) = none := habs
    have hany : state.streams.any (fun t => t.id == id) = false :=
      any_eq_false_of_find_none state.streams id habs'
    simp [ServerSession.new_headers, SessionState.get_stream_ref, habs',
      SessionState.insert_stream, DefaultStream.set_headers, hfac, hany]
  · intro s hsome
    have heq : ServerSession.new_headers state factory id h =
        (state.update_stream id (fun t => t.set_headers h), []) := by
      simp [ServerSession.new_headers, SessionState.get_stream_ref] at hsome ⊢
      simp [hsome]
    refine ⟨heq, ?_, ?_⟩
    · rw [heq]
      exact update_first_find state.streams id _ s (fun t => rfl) hsome
    · rw [heq]
      exact update_first_length state.streams id _

/-- C5 witness: the two cases at concrete inputs -- HEADERS for unknown
stream id 1 on an empty state mints and inserts the stream; a second
HEADERS on the resulting state replaces the headers without growing the
state. -/
theorem server_new_headers_spec_witness :
    (ServerSession.new_headers ⟨[]⟩ SimpleFactory.create 1 [([1], [2])] =
        ({ streams := [] ++ [(SimpleFactory.create 1).set_headers [([1], [2])]] }, [1]) ∧
      ((SimpleFactory.create 1).set_headers [([1], [2])]).headers = some [([1], [2])]) ∧
    (ServerSession.new_headers ⟨[DefaultStream.with_id 1]⟩ SimpleFactory.create 1 [([3], [4])] =
        ((⟨[DefaultStream.with_id 1]⟩ : SessionState).update_stream 1
            (fun t => t.set_headers [([3], [4])]), []) ∧
      (ServerSession.new_headers ⟨[DefaultStream.with_id 1]⟩ SimpleFactory.create 1
            [([3], [4])]).1.get_stream_ref 1
          = some ((DefaultStream.with_id 1).set_headers [([3], [4])]) ∧
      (ServerSession.new_headers ⟨[DefaultStream.with_id 1]⟩ SimpleFactory.create 1
            [([3], [4])]).1.streams.length
          = (⟨[DefaultStream.with_id 1]⟩ : SessionState).streams.length) :=
  ⟨(server_new_headers_spec ⟨[]⟩ SimpleFactory.create 1 [([1], [2])] rfl).1 rfl,
   (server_new_headers_spec ⟨[DefaultStream.with_id 1]⟩ SimpleFactory.create 1 [([3], [4])]
      rfl).2 (DefaultStream.with_id 1) rfl⟩

/-! C10. Streams in a server state always carry headers. -/

/-- The invariant: every stream in the state has its headers set. -/
def streams_headers_set (st : SessionState) : Prop :=
  ∀ t ∈ st.streams, t.headers.isSome = true

/-- An in-place update by an invariant-preserving function preserves a
universally quantified stream invariant. -/
theorem update_first_forall {P : DefaultStream → Prop} (l : List DefaultStream)
    (id : StreamId) (f : DefaultStream → DefaultStream)
    (hl : ∀ u ∈ l, P u) (hf : ∀ u, P u → P (f u)) :
    ∀ t ∈ update_first l id f, P t := by
  induction l with
  | nil =>
    intro t ht
    simp [update_first] at ht
  | cons a rest ih =>
    intro t ht
    simp only [update_first] at ht
    split at ht
    · rcases List.mem_cons.mp ht with rfl | hmem
      · exact hf a (hl a (List.mem_cons_self a rest))
      · exact hl t (List.mem_cons_of_mem a hmem)
    · rcases List.mem_cons.mp ht with rfl | hmem
      · exact hl t (List.mem_cons_self t rest)
      · exact ih (fun u hu => hl u (List.mem_cons_of_mem a hu)) t hmem

/-- Every single `SimpleServer` state mutation preserves the headers
invariant: streams enter the state only through `new_headers`, which sets
the headers before inserting. -/
theorem server_step_preserves (st : SessionState) (e : ServerEvent)
    (hst : streams_headers_set st) : streams_headers_set (server_step st e) := by
  cases e with
  | headersEv id h =>
    simp only [server_step, ServerSession.new_headers]
    cases hfind : st.get_stream_ref id with
    | some s =>
      simp only
      exact update_first_forall st.streams id _ hst (fun u _ => by
        simp [DefaultStream.set_headers])
    | none =>
      simp only [SessionState.insert_stream]
      split
      · exact hst
      · intro t ht
        rcases List.mem_append.mp ht with hmem | hnew
        · exact hst t hmem
        · rcases List.mem_singleton.mp hnew with rfl
          simp [DefaultStream.set_headers]
  | dataEv id chunk =>
    simp only [server_step, ServerSession.new_data_chunk]
    cases hfind : st.get_stream_ref id with
    | none => exact hst
    | some s =>
      exact update_first_forall st.streams id _ hst (fun u hu => by
        simpa [DefaultStream.new_data_chunk] using hu)
  | endStreamEv id =>
    simp only [server_step, ServerSession.end_of_stream]
    cases hfind : st.get_stream_ref id with
    | none => exact hst
    | some s =>
      exact update_first_forall st.streams id _ hst (fun u hu => by
        simpa [DefaultStream.close_remote] using hu)
  | stageResponseEv id body =>
    exact update_first_forall st.streams id _ hst (fun u hu => by
      simpa [DefaultStream.set_full_data] using hu)
  | reapEv =>
    intro t ht
    exact hst t (List.mem_of_mem_filter ht)

/-- The headers invariant holds along any run of `SimpleServer` state
mutations. -/
theorem server_run_inv (evs : List ServerEvent) :
    ∀ st : SessionState, streams_headers_set st →
      streams_headers_set (evs.foldl server_step st) := by
  induction evs with
  | nil => exact fun st hst => hst
  | cons e rest ih =>
    intro st hst
    exact ih (server_step st e) (server_step_preserves st e hst)

/-- C10: after any sequence of `SimpleServer` state mutations from the
empty initial state, every stream in the session state has its headers
field set; in particular every remote-closed stream reached by the request
handler dispatch of `handle_requests` has headers, so its unwrap cannot
fail. -/
theorem server_streams_headers_set (evs : List ServerEvent) :
    (∀ t ∈ (server_run evs).streams, t.headers.isSome = true) ∧
      ∀ t ∈ (server_run evs).streams.filter (fun s => s.is_closed_remote),
        t.headers.isSome = true := by
  have hinv : streams_headers_set (server_run evs) :=
    server_run_inv evs ⟨[]⟩ (by intro t ht; simp at ht)
  exact ⟨hinv, fun t ht => hinv t (List.mem_of_mem_filter ht)⟩

/-- C10 witness: the state after receiving HEADERS on stream 1 and its end
of stream, where stream 1 is remote-closed and carries its headers. -/
theorem server_streams_headers_set_witness :
    (⟨1, some [([1], [2])], [], false, true, none⟩ : DefaultStream) ∈
        (server_run [.headersEv 1 [([1], [2])], .endStreamEv 1]).streams ∧
      ((⟨1, some [([1], [2])], [], false, true, none⟩ : DefaultStream).headers.isSome = true) :=
  ⟨by decide,
   (server_streams_headers_set [.headersEv 1 [([1], [2])], .endStreamEv 1]).1 _ (by decide)⟩

/-! C6. Closing and harvesting a client stream. -/

/-- Core harvest computation: closing the stream found for `sid` and then
splitting the streams by closedness yields exactly that closed stream, and
leaves the others (none of which is closed) in order. -/
theorem harvest_core (sid : StreamId) (s : DefaultStream) :
    ∀ l : List DefaultStream,
      l.find? (fun t => t.id == sid) = some s →
      (∀ t ∈ l, t.id ≠ sid → t.is_closed = false) →
      (l.map (fun t => t.id)).Nodup →
      (update_first l sid (fun t => t.close)).filter (fun t => t.is_closed) = [s.close] ∧
        (update_first l sid (fun t => t.close)).filter (fun t => !t.is_closed) =
          l.filter (fun t => t.id != sid) := by
  intro l
  induction l with
  | nil =>
    intro hfind hothers hnodup
    simp at hfind
  | cons a rest ih =>
    intro hfind hothers hnodup
    cases hid : (a.id == sid) with
    | true =>
      have ha : a.id = sid := by simpa using hid
      have hs : a = s := by
        have h2 : List.find? (fun t => t.id == sid) (a :: rest) = some a :=
          List.find?_cons_of_pos rest hid
        rw [h2] at hfind
        injection hfind
      have hu : update_first (a :: rest) sid (fun t => t.close) = a.close :: rest := by
        simp [update_first, hid]
      have hrest_ne : ∀ t ∈ rest, t.id ≠ sid := by
        intro t ht hteq
        have hnm := (List.nodup_cons.mp hnodup).1
        exact hnm (List.mem_map.mpr ⟨t, ht, by show t.id = a.id; rw [hteq, ha]⟩)
      have hrest_closed : ∀ t ∈ rest, t.is_closed = false := fun t ht =>
        hothers t (List.mem_cons_of_mem a ht) (hrest_ne t ht)
      have hacl : (a.close).is_closed = true := by
        simp [DefaultStream.close, DefaultStream.is_closed]
      rw [hu, ← hs]
      constructor
      · have hnil : rest.filter (fun t => t.is_closed) = [] :=
          List.filter_eq_nil_iff.mpr (fun t ht => by simp [hrest_closed t ht])
        simp [List.filter_cons, hacl, hnil]
      · have hself1 : rest.filter (fun t => !t.is_closed) = rest :=
          List.filter_eq_self.mpr (fun t ht => by simp [hrest_closed t ht])
        have hself2 : rest.filter (fun t => t.id != sid) = rest :=
          List.filter_eq_self.mpr (fun t ht => by simp [hrest_ne t ht])
        simp [List.filter_cons, hacl, hself1, hself2, ha]
    | false =>
      have ha : a.id ≠ sid := by simpa using hid
      have hfind2 : rest.find? (fun t => t.id == sid) = some s := by
        have hstep : List.find? (fun t => t.id == sid) (a :: rest) =
            List.find? (fun t => t.id == sid) rest :=
          List.find?_cons_of_neg rest (by simp [hid])
        rw [hstep] at hfind
        exact hfind
      have hacl : a.is_closed = false :=
        hothers a (List.mem_cons_self a rest) ha
      obtain ⟨ih1, ih2⟩ := ih hfind2
        (fun t ht => hothers t (List.mem_cons_of_mem a ht))
        ((List.nodup_cons.mp hnodup).2)
      have hu : update_first (a :: rest) sid (fun t => t.close) =
          a :: update_first rest sid (fun t => t.close) := by
        simp [update_first, hid]
      rw [hu]
      constructor
      · simp [List.filter_cons, hacl, ih1]
      · simp [List.filter_cons, hacl, ih2, ha]

/-- C6: in a client session that contains a stream for `sid` (found as
`s`), where no other stream is closed and stream ids are unique, delivering
`end_of_stream(sid)` and then harvesting with `get_closed` returns exactly
that stream (once, closed) and removes it, while all remaining streams are
kept in their original insertion order; streams that got no
`end_of_stream` are not returned. -/
theorem client_end_of_stream_harvest (sess : ClientSession) (sid : StreamId)
    (s : DefaultStream)
    (hfind : sess.state.get_stream_ref sid = some s)
    (hothers : ∀ t ∈ sess.state.streams, t.id ≠ sid → t.is_closed = false)
    (hnodup : (sess.state.streams.map (fun t => t.id)).Nodup) :
    (sess.end_of_stream sid).get_closed.1 = [s.close] ∧
      (sess.end_of_stream sid).get_closed.2.state.streams =
        sess.state.streams.filter (fun t => t.id != sid) := by
  obtain ⟨hc1, hc2⟩ := harvest_core sid s sess.state.streams hfind hothers hnodup
  have hend : sess.end_of_stream sid =
      ⟨⟨update_first sess.state.streams sid (fun t => t.close)⟩⟩ := by
    simp only [ClientSession.end_of_stream, hfind]
    rfl
  rw [hend]
  exact ⟨hc1, hc2⟩

/-- C6 witness: the session of spec scenario 5 -- stream 1 has body
`[1,2,3,4]` and headers, stream 3 has body `[100]`; ending stream 1 and
harvesting returns exactly stream 1 closed and keeps only stream 3. -/
theorem client_end_of_stream_harvest_witness :
    ((⟨⟨[⟨1, some [([1], [2])], [1, 2, 3, 4], false, false, none⟩,
        ⟨3, none, [100], false, false, none⟩]⟩⟩ : ClientSession).end_of_stream 1).get_closed.1
        = [DefaultStream.close ⟨1, some [([1], [2])], [1, 2, 3, 4], false, false, none⟩] ∧
      ((⟨⟨[⟨1, some [([1], [2])], [1, 2, 3, 4], false, false, none⟩,
          ⟨3, none, [100], false, false, none⟩]⟩⟩ :
            ClientSession).end_of_stream 1).get_closed.2.state.streams
        = [⟨1, some [([1], [2])], [1, 2, 3, 4], false, false, none⟩,
           (⟨3, none, [100], false, false, none⟩ : DefaultStream)].filter
            (fun t => t.id != 1) :=
  client_end_of_stream_harvest
    ⟨⟨[⟨1, some [([1], [2])], [1, 2, 3, 4], false, false, none⟩,
       ⟨3, none, [100], false, false, none⟩]⟩⟩ 1
    ⟨1, some [([1], [2])], [1, 2, 3, 4], false, false, none⟩
    (by decide) (by decide) (by decide)

/-! C8. Byte-level roundtrip for the PING frame. -/

/-- Unpacking offset 0 of the concatenated big-endian words recovers the
first word. -/
theorem unpack4_first (x y : Nat) (hx : x < 2 ^ 32) :
    unpack_octets_4 (write_u32 x ++ write_u32 y) 0 = x := by
  have hred : unpack_octets_4 (write_u32 x ++ write_u32 y) 0 =
      (x / 2 ^ 24 % 256) <<< 24 ||| (x / 2 ^ 16 % 256) <<< 16 |||
        (x / 2 ^ 8 % 256) <<< 8 ||| x % 256 := by
    simp only [unpack_octets_4, write_u32, List.cons_append, List.nil_append]
    norm_num [List.getD]
  rw [hred, bytes_recompose _ _ _ _ (Nat.mod_lt _ (by norm_num))
    (Nat.mod_lt _ (by norm_num)) (Nat.mod_lt _ (by norm_num))]
  norm_num at hx ⊢
  omega

/-- Unpacking offset 4 of the concatenated big-endian words recovers the
second word. -/
theorem unpack4_second (x y : Nat) (hy : y < 2 ^ 32) :
    unpack_octets_4 (write_u32 x ++ write_u32 y) 4 = y := by
  have hred : unpack_octets_4 (write_u32 x ++ write_u32 y) 4 =
      (y / 2 ^ 24 % 256) <<< 24 ||| (y / 2 ^ 16 % 256) <<< 16 |||
        (y / 2 ^ 8 % 256) <<< 8 ||| y % 256 := by
    simp only [unpack_octets_4, write_u32, List.cons_append, List.nil_append]
    norm_num [List.getD]
  rw [hred, bytes_recompose _ _ _ _ (Nat.mod_lt _ (by norm_num))
    (Nat.mod_lt _ (by norm_num)) (Nat.mod_lt _ (by norm_num))]
  norm_num at hy ⊢
  omega

/-- Parsing the wire bytes of a PING frame header followed by any 8-byte
payload yields the PING frame with the reassembled opaque data. -/
theorem parse_ping_of_bytes (fl : Nat) (p : List Nat) (hp : p.length = 8) :
    parse_ping (0 :: 0 :: 8 :: 6 :: fl :: 0 :: 0 :: 0 :: 0 :: p) =
      some ⟨unpack_octets_4 p 0 <<< 32 ||| unpack_octets_4 p 4, fl⟩ := by
  simp only [parse_ping, parse_raw_frame]
  norm_num [hp]
  simp [PingFrame.from_raw, PING_FRAME_LEN, PING_FRAME_TYPE]

/-- C8: for every well-formed PING frame (any flags byte, any 64-bit opaque
value), serializing with `serialize_into` and parsing the bytes back
through `RawFrame` splitting and `PingFrame::from_raw` returns exactly the
original frame. -/
theorem ping_serialize_parse_roundtrip (f : PingFrame)
    (hflags : f.flags < 256) (hdata : f.opaque_data < 2 ^ 64) :
    parse_ping f.serialize_into = some f := by
  obtain ⟨d, fl⟩ := f
  simp only at hflags hdata
  have hser : PingFrame.serialize_into ⟨d, fl⟩ =
      0 :: 0 :: 8 :: 6 :: fl :: 0 :: 0 :: 0 :: 0 ::
        (write_u32 ((d >>> 32) % 2 ^ 32) ++ write_u32 (d % 2 ^ 32)) := by
    simp [PingFrame.serialize_into, PingFrame.get_header, write_header,
      PING_FRAME_LEN, PING_FRAME_TYPE, Nat.mod_eq_of_lt hflags]
    norm_num [write_u32]
  have hlen : (write_u32 ((d >>> 32) % 2 ^ 32) ++ write_u32 (d % 2 ^ 32)).length = 8 := by
    simp [write_u32]
  rw [hser, parse_ping_of_bytes fl _ hlen]
  rw [unpack4_first _ _ (Nat.mod_lt _ (by norm_num)),
    unpack4_second _ _ (Nat.mod_lt _ (by norm_num))]
  rw [lor_shiftLeft_add 32 _ _ (Nat.mod_lt _ (by norm_num))]
  rw [Nat.shiftLeft_eq, Nat.shiftRight_eq_div_pow]
  simp only [Option.some.injEq, PingFrame.mk.injEq, and_true]
  norm_num at hdata ⊢
  omega

/-- C8 witness: the roundtrip at the PING frame with ACK flag and opaque
data 0x0102030405060708. -/
theorem ping_serialize_parse_roundtrip_witness :
    (PingFrame.flags ⟨0x0102030405060708, 1⟩ < 256) ∧
      (PingFrame.opaque_data ⟨0x0102030405060708, 1⟩ < 2 ^ 64) ∧
      parse_ping (PingFrame.serialize_into ⟨0x0102030405060708, 1⟩) =
        some ⟨0x0102030405060708, 1⟩ :=
  ⟨by decide, by decide,
   ping_serialize_parse_roundtrip ⟨0x0102030405060708, 1⟩ (by decide) (by decide)⟩

end Solicit
